import Mathlib

/-!
Shallow embedding of the stale-resource sweeper lambdas of this repository:

* `src/stale-ebs-volume-all-region.py`  — multi-region EBS sweep (mode A classifier),
* `src/stale-ebs-volume-ap-south-1.py`  — single-region EBS sweep (age-gated mode B),
* `src/stale-s3-bucket.py`              — S3 bucket sweep (`is_bucket_stale`).

Cloud API calls are modelled by explicit data (the volumes/buckets a region
holds, flags saying whether an enumeration call raises) and by oracles
(`del`, `emptyOk`, `delOk` : name-indexed booleans saying whether a delete or
empty call succeeds).  Python exceptions around whole runs become
`Except String`; per-item `try/except` blocks become branches producing an
error outcome.  Timestamps are integers in epoch seconds; `timedelta(days=d)`
is `d * 86400` seconds, and Python's `timedelta.days` (floor of total days)
is integer floor division `Int.fdiv`.
-/

namespace StaleSweep

/-- Attachment status of an EBS volume, the describe_volumes status field. -/
inductive VolStatus where
  | inUse : VolStatus
  | available : VolStatus
deriving DecidableEq

/-- One EBS volume record: VolumeId, status, CreateTime (epoch seconds). -/
structure Volume where
  volumeId : String
  status : VolStatus
  createTime : Int
deriving DecidableEq

/-- Seconds per day, translating timedelta(days=d) arithmetic. -/
def secondsPerDay : Int := 86400

/-- The server-side filter Name=status, Values=[available] used by the second
describe_volumes call of both EBS scripts. -/
def availableVolumes (vs : List Volume) : List Volume :=
  vs.filter (fun v => v.status == VolStatus.available)

/-- One CloudWatch metric datum as passed to put_metric_data: namespace,
metric name, optional Region dimension, value. -/
structure MetricPoint where
  ns : String
  metricName : String
  dim : Option String
  value : Nat
deriving DecidableEq

/-- A deletion-outcome entry as appended to the deletion-results lists; the
constructor mirrors the message suffix the code formats (DELETED,
WOULD BE DELETED, ERROR) and the label carries the formatted resource part.
The skipped constructor exists so that the specification's SKIPPED outcome
can be stated; none of the three scripts ever emits it. -/
inductive Outcome where
  | deleted : String → Outcome
  | wouldDelete : String → Outcome
  | errorOut : String → Outcome
  | skipped : String → Outcome
deriving DecidableEq

/-- The DRY_RUN, NOTIFY_ONLY and STALE_DAYS_THRESHOLD module flags of the
EBS scripts. -/
structure Config where
  dryRun : Bool
  notifyOnly : Bool
  staleDaysThreshold : Int
deriving DecidableEq

/-! ### Single-region age-gated script, `stale-ebs-volume-ap-south-1.py` -/

/-- threshold_time = current_time - timedelta(days=STALE_DAYS_THRESHOLD). -/
def thresholdTime (now days : Int) : Int := now - days * secondsPerDay

/-- The staleness test of the single-region script: the volume appears in the
available-filtered enumeration and its CreateTime is strictly earlier than
threshold_time (the loop keeps a volume when vol CreateTime < threshold_time). -/
def isStaleVolumeB (now days : Int) (v : Volume) : Bool :=
  v.status == VolStatus.available && decide (v.createTime < thresholdTime now days)

/-- The stale_volume_ids construction of the single-region script: the
available-filtered volumes whose CreateTime < threshold_time, in order. -/
def staleVolumesB (now days : Int) (vs : List Volume) : List Volume :=
  (availableVolumes vs).filter (fun v => decide (v.createTime < thresholdTime now days))

/-- Spec-side predicate for claim C1, written from the spec's words and kept
for refinement comparison only: status AVAILABLE and age at least the
threshold, the boundary being inclusive. -/
def specStaleVolumeB (now days : Int) (v : Volume) : Bool :=
  v.status == VolStatus.available && decide (days * secondsPerDay ≤ now - v.createTime)

/-- One iteration of the single-region deletion loop: DRY_RUN logs a
would-be deletion, otherwise ec2.delete_volume is issued and a raise becomes
an ERROR line, success a DELETED line. -/
def volOutcome (cfg : Config) (del : String → Bool) (vid : String) : Outcome :=
  if cfg.dryRun then Outcome.wouldDelete vid
  else if del vid then Outcome.deleted vid
  else Outcome.errorOut vid

/-- Observable result of the single-region handler: counts, stale ids,
deletion results, issued delete calls, metric data and the three counts
carried in the e-mail body. -/
structure SingleResult where
  totalCount : Nat
  availableCount : Nat
  staleIds : List String
  outcomes : List Outcome
  deleteCalls : List String
  metrics : List MetricPoint
  emailTotal : Nat
  emailAvailable : Nat
  emailStale : Nat
  statusCode : Nat
deriving DecidableEq

/-- The lambda_handler of `stale-ebs-volume-ap-south-1.py`.  Enumeration is
given as the list of volumes the region holds; `del vid` says whether the
delete_volume call for `vid` succeeds. -/
def runSingle (cfg : Config) (now : Int) (del : String → Bool)
    (volumes : List Volume) : SingleResult :=
  let totalCount := volumes.length
  let availableCount := (availableVolumes volumes).length
  let staleIds := (staleVolumesB now cfg.staleDaysThreshold volumes).map (fun v => v.volumeId)
  let outcomes := if cfg.notifyOnly then [] else staleIds.map (volOutcome cfg del)
  let deleteCalls := if cfg.notifyOnly || cfg.dryRun then [] else staleIds
  ⟨totalCount, availableCount, staleIds, outcomes, deleteCalls,
   [⟨"Custom/EBSMetrics", "TotalVolumeCount", none, totalCount⟩,
    ⟨"Custom/EBSMetrics", "AvailableVolumeCount", none, availableCount⟩],
   totalCount, availableCount, staleIds.length, 200⟩

/-! ### Multi-region script, `stale-ebs-volume-all-region.py` -/

/-- The state of one region as seen by the multi-region script: its name, the
volumes it holds, and whether describe_volumes raises there. -/
structure RegionEnv where
  name : String
  volumes : List Volume
  enumFails : Bool
deriving DecidableEq

/-- stale_ids of one region: the VolumeIds of the available-filtered
enumeration (the multi-region script has no age gate). -/
def regionStaleIds (env : RegionEnv) : List String :=
  (availableVolumes env.volumes).map (fun v => v.volumeId)

/-- One iteration of the multi-region deletion loop; the label is the
formatted region-qualified volume id. -/
def regionOutcome (cfg : Config) (del : String → String → Bool)
    (region vid : String) : Outcome :=
  if cfg.dryRun then Outcome.wouldDelete (region ++ ": " ++ vid)
  else if del region vid then Outcome.deleted (region ++ ": " ++ vid)
  else Outcome.errorOut (region ++ ": " ++ vid)

/-- The deletion results a region contributes: nothing under NOTIFY_ONLY,
otherwise one line per stale id. -/
def regionOutcomes (cfg : Config) (del : String → String → Bool)
    (env : RegionEnv) : List Outcome :=
  if cfg.notifyOnly then []
  else (regionStaleIds env).map (regionOutcome cfg del env.name)

/-- The delete_volume calls a region issues: none under NOTIFY_ONLY or
DRY_RUN, otherwise one call per stale id. -/
def regionDeleteCalls (cfg : Config) (env : RegionEnv) : List (String × String) :=
  if cfg.notifyOnly || cfg.dryRun then []
  else (regionStaleIds env).map (fun vid => (env.name, vid))

/-- The two metric data points each region pushes: TotalVolumeCount and
AvailableVolumeCount, dimensioned by region. -/
def regionMetrics (env : RegionEnv) : List MetricPoint :=
  [⟨"Custom/EBSMetrics", "TotalVolumeCount", some env.name, env.volumes.length⟩,
   ⟨"Custom/EBSMetrics", "AvailableVolumeCount", some env.name,
    (availableVolumes env.volumes).length⟩]

/-- Aggregate result of a completed multi-region run. -/
structure AllRegionResult where
  totalGlobal : Nat
  staleGlobal : Nat
  staleIds : List String
  outcomes : List Outcome
  deleteCalls : List (String × String)
  metrics : List MetricPoint
  statusCode : Nat
deriving DecidableEq

/-- The lambda_handler of `stale-ebs-volume-all-region.py`: a sequential loop
over regions with no try/except around the per-region body, so a raising
describe_volumes propagates and the whole invocation errors out. -/
def runAllRegion (cfg : Config) (del : String → String → Bool) :
    List RegionEnv → Except String AllRegionResult
  | [] => Except.ok ⟨0, 0, [], [], [], [], 200⟩
  | env :: rest =>
    if env.enumFails then Except.error ("describe_volumes failed: " ++ env.name)
    else
      match runAllRegion cfg del rest with
      | Except.error e => Except.error e
      | Except.ok acc =>
        Except.ok ⟨env.volumes.length + acc.totalGlobal,
                   (availableVolumes env.volumes).length + acc.staleGlobal,
                   ((regionStaleIds env).map (fun vid => env.name ++ ": " ++ vid))
                     ++ acc.staleIds,
                   regionOutcomes cfg del env ++ acc.outcomes,
                   regionDeleteCalls cfg env ++ acc.deleteCalls,
                   regionMetrics env ++ acc.metrics,
                   200⟩

/-- True when every region's describe_volumes call succeeds. -/
def allEnumOk (envs : List RegionEnv) : Bool :=
  envs.all (fun e => !e.enumFails)

/-- Whether an Except-modelled run completed without raising. -/
def exceptOk {α : Type} : Except String α → Bool
  | Except.ok _ => true
  | Except.error _ => false

/-- The outcomes the run reported; an aborted run reports none. -/
def okOutcomes : Except String AllRegionResult → List Outcome
  | Except.ok r => r.outcomes
  | Except.error _ => []

/-- The delete calls of the reported run; an aborted run reports none. -/
def okDeleteCalls : Except String AllRegionResult → List (String × String)
  | Except.ok r => r.deleteCalls
  | Except.error _ => []

/-- The global total the run reported; an aborted run reports none. -/
def okTotal : Except String AllRegionResult → Nat
  | Except.ok r => r.totalGlobal
  | Except.error _ => 0

/-- The global stale count the run reported; an aborted run reports none. -/
def okStale : Except String AllRegionResult → Nat
  | Except.ok r => r.staleGlobal
  | Except.error _ => 0

/-- The region-qualified stale ids the run reported. -/
def okStaleIds : Except String AllRegionResult → List String
  | Except.ok r => r.staleIds
  | Except.error _ => []

/-- The metric data the run reported. -/
def okMetrics : Except String AllRegionResult → List MetricPoint
  | Except.ok r => r.metrics
  | Except.error _ => []

/-! ### S3 bucket script, `stale-s3-bucket.py` -/

/-- One listed S3 object: key and LastModified (epoch seconds). -/
structure S3Obj where
  key : String
  lastModified : Int
deriving DecidableEq

/-- One S3 bucket: name, CreationDate, full contents in listing order, and
whether list_objects_v2 raises for it. -/
structure Bucket where
  name : String
  creationDate : Int
  objects : List S3Obj
  listFails : Bool
deriving DecidableEq

/-- The S3 script's module flags: DRY_RUN, NOTIFY_ONLY, STALE_DAYS_THRESHOLD,
EMPTY_BUCKETS_ONLY, CHECK_OBJECT_LAST_MODIFIED. -/
structure S3Config where
  dryRun : Bool
  notifyOnly : Bool
  staleDaysThreshold : Int
  emptyBucketsOnly : Bool
  checkObjectLastModified : Bool
deriving DecidableEq

/-- Python's (now - last_modified).days: floor division of the elapsed
seconds by a day. -/
def daysOld (now lastModified : Int) : Int :=
  (now - lastModified).fdiv secondsPerDay

/-- is_bucket_stale of `stale-s3-bucket.py`.  list_objects_v2 is called with
MaxKeys=1, so the inspected page is the first element of the contents; a
raising call is caught and yields False; EMPTY_BUCKETS_ONLY returns page
emptiness; otherwise, with CHECK_OBJECT_LAST_MODIFIED and a non-empty page,
any page object younger than the threshold returns False and the loop
falling through returns True; every remaining path returns False. -/
def is_bucket_stale (cfg : S3Config) (now : Int) (b : Bucket) : Bool :=
  if b.listFails then false
  else
    let contents := b.objects.take 1
    if cfg.emptyBucketsOnly then contents.isEmpty
    else if cfg.checkObjectLastModified && !contents.isEmpty then
      contents.all (fun o => !decide (daysOld now o.lastModified < cfg.staleDaysThreshold))
    else false

/-- The deletion attempt for one stale bucket: DRY_RUN logs a would-be
deletion; otherwise the bucket is first emptied (objects and versions) and
then delete_bucket is called, and a raise at either step is caught as one
ERROR line for that bucket; DELETED needs both steps to succeed. -/
def bucketOutcome (cfg : S3Config) (emptyOk delOk : String → Bool)
    (name : String) : Outcome :=
  if cfg.dryRun then Outcome.wouldDelete name
  else if emptyOk name then
    if delOk name then Outcome.deleted name else Outcome.errorOut name
  else Outcome.errorOut name

/-- The formatted stale-bucket line, name plus CreationDate. -/
def staleBucketLabel (b : Bucket) : String :=
  b.name ++ " (Created: " ++ toString b.creationDate ++ ")"

/-- The account as the S3 script sees it: whether list_buckets raises, and
the buckets it would return. -/
structure S3Env where
  listBucketsFails : Bool
  buckets : List Bucket
deriving DecidableEq

/-- Observable result of the S3 handler, including how many times each sink
(metric data points, SNS publish, dashboard put) was invoked. -/
structure S3Result where
  statusCode : Nat
  totalBuckets : Nat
  staleBuckets : Nat
  staleNames : List String
  outcomes : List Outcome
  deleteCalls : List String
  metrics : List MetricPoint
  snsPublishes : Nat
  dashboardPublishes : Nat
deriving DecidableEq

/-- The lambda_handler of `stale-s3-bucket.py`.  A raising list_buckets is
caught by the outer try and returns statusCode 500 before any sink call;
otherwise every bucket is inspected in order, stale ones are counted,
labelled, and (subject to NOTIFY_ONLY and DRY_RUN) deletion is attempted,
then the two metric points, one SNS publish and one dashboard put follow. -/
def runS3 (cfg : S3Config) (now : Int) (emptyOk delOk : String → Bool)
    (env : S3Env) : S3Result :=
  if env.listBucketsFails then ⟨500, 0, 0, [], [], [], [], 0, 0⟩
  else
    let staleList := env.buckets.filter (is_bucket_stale cfg now)
    let outcomes :=
      if cfg.notifyOnly then []
      else staleList.map (fun b => bucketOutcome cfg emptyOk delOk b.name)
    let deleteCalls :=
      if cfg.notifyOnly || cfg.dryRun then []
      else staleList.map (fun b => b.name)
    ⟨200, env.buckets.length, staleList.length, staleList.map staleBucketLabel,
     outcomes, deleteCalls,
     [⟨"Custom/S3Metrics", "TotalBucketCount", none, env.buckets.length⟩,
      ⟨"Custom/S3Metrics", "StaleBucketCount", none, staleList.length⟩],
     1, 1⟩

/-! ### General lemmas about the runs -/

/-- When every region's enumeration succeeds, the multi-region run completes
and its report is the region-wise aggregation, in region order. -/
theorem runAllRegion_ok_eq (cfg : Config) (del : String → String → Bool)
    (envs : List RegionEnv) (h : allEnumOk envs = true) :
    runAllRegion cfg del envs = Except.ok
      ⟨(envs.map (fun e => e.volumes.length)).sum,
       (envs.map (fun e => (availableVolumes e.volumes).length)).sum,
       (envs.map (fun e => (regionStaleIds e).map (fun vid => e.name ++ ": " ++ vid))).flatten,
       (envs.map (fun e => regionOutcomes cfg del e)).flatten,
       (envs.map (fun e => regionDeleteCalls cfg e)).flatten,
       (envs.map (fun e => regionMetrics e)).flatten,
       200⟩ := by
  induction envs with
  | nil => rfl
  | cons env rest ih =>
    simp only [allEnumOk, List.all_cons, Bool.and_eq_true, Bool.not_eq_true'] at h
    have ih2 := ih h.2
    simp [runAllRegion, h.1, ih2]

/-- Every outcome contributed by a successfully enumerated region appears in
the completed run's outcome list. -/
theorem mem_okOutcomes_of_mem_region (cfg : Config) (del : String → String → Bool)
    (envs : List RegionEnv) (env : RegionEnv) (o : Outcome)
    (henv : env ∈ envs) (h : allEnumOk envs = true)
    (ho : o ∈ regionOutcomes cfg del env) :
    o ∈ okOutcomes (runAllRegion cfg del envs) := by
  rw [runAllRegion_ok_eq cfg del envs h]
  simp only [okOutcomes, List.mem_flatten]
  exact ⟨regionOutcomes cfg del env, List.mem_map_of_mem _ henv, ho⟩

/-- Under NOTIFY_ONLY the multi-region run records no outcome and issues no
delete call, whether or not it completes. -/
theorem runAllRegion_notifyOnly (cfg : Config) (del : String → String → Bool)
    (envs : List RegionEnv) (hn : cfg.notifyOnly = true) :
    okOutcomes (runAllRegion cfg del envs) = [] ∧
    okDeleteCalls (runAllRegion cfg del envs) = [] := by
  induction envs with
  | nil => exact ⟨rfl, rfl⟩
  | cons env rest ih =>
    cases hc : env.enumFails with
    | true => simp [runAllRegion, hc, okOutcomes, okDeleteCalls]
    | false =>
      simp only [runAllRegion, hc, if_false, Bool.false_eq_true]
      cases hr : runAllRegion cfg del rest with
      | error m => simp [okOutcomes, okDeleteCalls]
      | ok acc =>
        rw [hr] at ih
        simp only [okOutcomes, okDeleteCalls] at ih
        simp [okOutcomes, okDeleteCalls, regionOutcomes, regionDeleteCalls, hn,
          ih.1, ih.2]

/-! ### Concrete fixtures for counterexamples and witnesses -/

/-- Active-deletion flags with the single-region script's 7-day threshold. -/
def cfgActive : Config := ⟨false, false, 7⟩

/-- NOTIFY_ONLY flags with the 7-day threshold. -/
def cfgNotify : Config := ⟨false, true, 7⟩

/-- The single-region script's shipped flags: DRY_RUN=True, NOTIFY_ONLY=False,
STALE_DAYS_THRESHOLD=7. -/
def cfgSingleShipped : Config := ⟨true, false, 7⟩

/-- A run instant, seven days after epoch. -/
def nowFix : Int := 7 * 86400

/-- A later run instant, eight days after epoch. -/
def nowLate : Int := 8 * 86400

/-- A volume created exactly at the age-gate boundary for `nowFix`. -/
def vBoundary : Volume := ⟨"vol-b", VolStatus.available, 0⟩

/-- An available volume created at `nowFix` itself (age zero). -/
def vYoung : Volume := ⟨"vol-y", VolStatus.available, nowFix⟩

/-- An available volume named vol-x created at epoch. -/
def vX : Volume := ⟨"vol-x", VolStatus.available, 0⟩

/-- An available volume named vol-y created at epoch. -/
def vY : Volume := ⟨"vol-y", VolStatus.available, 0⟩

/-- A region whose describe_volumes raises. -/
def envFail : RegionEnv := ⟨"r1", [], true⟩

/-- A healthy region holding one available volume. -/
def envGood : RegionEnv := ⟨"r2", [vX], false⟩

/-- A healthy region holding the two available volumes vol-x and vol-y. -/
def envTwo : RegionEnv := ⟨"r1", [vX, vY], false⟩

/-- A delete oracle that succeeds exactly on vol-y, in any region. -/
def delOnlyY : String → String → Bool := fun _ vid => vid == "vol-y"

/-- A single-region delete oracle that succeeds exactly on vol-y. -/
def delOnlyY1 : String → Bool := fun vid => vid == "vol-y"

/-- A delete oracle that always fails. -/
def delNever : String → String → Bool := fun _ _ => false

/-- A single-name oracle that always succeeds. -/
def okAlways : String → Bool := fun _ => true

/-- A single-name oracle that always fails. -/
def okNever : String → Bool := fun _ => false

/-- The S3 script's shipped flags: DRY_RUN=False, NOTIFY_ONLY=False,
STALE_DAYS_THRESHOLD=0, EMPTY_BUCKETS_ONLY=True,
CHECK_OBJECT_LAST_MODIFIED=True. -/
def cfgS3Shipped : S3Config := ⟨false, false, 0, true, true⟩

/-- Age-gated S3 flags: empty-only off, last-modified check on, 5-day
threshold, active deletion. -/
def cfgS3ModeB : S3Config := ⟨false, false, 5, false, true⟩

/-- An empty bucket whose listing succeeds. -/
def bEmpty : Bucket := ⟨"b-empty", 0, [], false⟩

/-- An object last modified at epoch (old at `nowFix`). -/
def objOld : S3Obj := ⟨"k-old", 0⟩

/-- An object last modified at `nowFix` (brand new). -/
def objNew : S3Obj := ⟨"k-new", nowFix⟩

/-- A bucket whose first-listed object is old but whose second is new. -/
def bMixed : Bucket := ⟨"b-mixed", 0, [objOld, objNew], false⟩

/-- A bucket whose list_objects_v2 call raises. -/
def bListFail : Bucket := ⟨"b-fail", 0, [objNew], true⟩

/-! ### Claims -/

/-- C1, corrected.  In age-gated mode B (single-region script) `is_stale`
holds iff status == AVAILABLE and the age is STRICTLY greater than the
threshold: the code keeps a volume when CreateTime < threshold_time, so a
volume created exactly at the boundary (age equal to the threshold) is NOT
classified stale.  The second conjunct ties the classifier to the script's
stale_volume_ids construction. -/
theorem stale_volume_modeB_classifier (now days : Int) (v : Volume) (vs : List Volume) :
    (isStaleVolumeB now days v = true ↔
      (v.status = VolStatus.available ∧ days * secondsPerDay < now - v.createTime)) ∧
    staleVolumesB now days vs = vs.filter (isStaleVolumeB now days) := by
  constructor
  · simp only [isStaleVolumeB, thresholdTime, Bool.and_eq_true, beq_iff_eq,
      decide_eq_true_eq]
    constructor
    · rintro ⟨h1, h2⟩
      exact ⟨h1, by omega⟩
    · rintro ⟨h1, h2⟩
      exact ⟨h1, by omega⟩
  · simp only [staleVolumesB, availableVolumes, List.filter_filter]
    congr 1
    funext a
    simp only [isStaleVolumeB, Bool.and_comm]

/-- C1 counterexample.  At the exact threshold boundary (age equal to 7 days)
the spec-side predicate classifies the volume stale while the code does not. -/
theorem stale_volume_modeB_boundary_counterexample :
    isStaleVolumeB nowFix 7 vBoundary = false ∧
    specStaleVolumeB nowFix 7 vBoundary = true := by
  constructor <;> rfl

/-- C6, confirmed.  In empty-only mode A, `is_bucket_stale` is true iff the
first listed page (MaxKeys=1) of the bucket's contents is empty, whatever the
objects' ages are. -/
theorem bucket_empty_only_classifier (cfg : S3Config) (now : Int) (b : Bucket)
    (he : cfg.emptyBucketsOnly = true) (hl : b.listFails = false) :
    (is_bucket_stale cfg now b = true ↔ b.objects.take 1 = []) := by
  simp [is_bucket_stale, hl, he, List.isEmpty_iff]

/-- C6 witness: with the shipped flags, the concrete empty bucket is stale. -/
theorem bucket_empty_only_classifier_witness :
    is_bucket_stale cfgS3Shipped nowFix bEmpty = true :=
  (bucket_empty_only_classifier cfgS3Shipped nowFix bEmpty rfl rfl).mpr rfl

/-- C10, confirmed.  In age-gated mode B the verdict is decided by the single
first-listed object (the listing is requested with MaxKeys=1): for a bucket
with two or more objects whose first-listed object's age meets the threshold,
`is_bucket_stale` is true regardless of the remaining objects' ages. -/
theorem bucket_modeB_first_object_decides (cfg : S3Config) (now : Int) (b : Bucket)
    (o : S3Obj) (rest : List S3Obj)
    (he : cfg.emptyBucketsOnly = false) (hc : cfg.checkObjectLastModified = true)
    (hl : b.listFails = false) (hobj : b.objects = o :: rest) (_hr : rest ≠ [])
    (hage : cfg.staleDaysThreshold ≤ daysOld now o.lastModified) :
    is_bucket_stale cfg now b = true := by
  simp only [is_bucket_stale, hl, he, hc, hobj, if_false, Bool.false_eq_true,
    List.take_succ_cons, List.take_zero, List.isEmpty_cons, Bool.not_false,
    Bool.and_self, if_true, List.all_cons, List.all_nil, Bool.and_true]
  simp only [Bool.not_eq_true', decide_eq_false_iff_not, not_lt]
  exact hage

/-- C10 witness: the mixed bucket (old first object, new second object) is
classified stale under the age-gated flags at `nowFix`. -/
theorem bucket_modeB_first_object_decides_witness :
    is_bucket_stale cfgS3ModeB nowFix bMixed = true :=
  bucket_modeB_first_object_decides cfgS3ModeB nowFix bMixed objOld [objNew]
    rfl rfl rfl rfl (by simp) (by decide)

/-- NOTIFY_ONLY variant of the S3 script's flags. -/
def cfgS3Notify : S3Config := ⟨false, true, 0, true, true⟩

/-- C2, corrected.  The multi-region loop has no try/except around the
per-region body, so a raising describe_volumes propagates: an enumeration
failure in any region aborts the whole invocation, no aggregate report is
produced and the remaining regions are not processed. -/
theorem region_enum_failure_aborts_run (cfg : Config) (del : String → String → Bool)
    (envs : List RegionEnv) (h : ∃ e ∈ envs, e.enumFails = true) :
    exceptOk (runAllRegion cfg del envs) = false := by
  induction envs with
  | nil => simp at h
  | cons env rest ih =>
    cases hc : env.enumFails with
    | true => simp [runAllRegion, hc, exceptOk]
    | false =>
      obtain ⟨e, he, hf⟩ := h
      have hrest : ∃ x ∈ rest, x.enumFails = true := by
        rcases List.mem_cons.mp he with h1 | h2
        · subst h1
          rw [hc] at hf
          exact absurd hf (by simp)
        · exact ⟨e, h2, hf⟩
      have hih := ih hrest
      simp only [runAllRegion, hc, if_false, Bool.false_eq_true]
      cases hr : runAllRegion cfg del rest with
      | error m => simp [exceptOk]
      | ok r =>
        rw [hr] at hih
        simp [exceptOk] at hih

/-- C2 witness: a two-region account whose first region's enumeration raises
leaves the run aborted. -/
theorem region_enum_failure_aborts_run_witness :
    exceptOk (runAllRegion cfgActive delNever [envFail, envGood]) = false :=
  region_enum_failure_aborts_run cfgActive delNever [envFail, envGood]
    ⟨envFail, by simp, rfl⟩

/-- C2 counterexample.  Region r1's enumeration fails while r2 holds one
volume; the claim promises an aggregate report carrying r2's results, but the
run raises and reports nothing: the error propagates and the report's totals
never materialise. -/
theorem region_enum_failure_counterexample :
    runAllRegion cfgActive delNever [envFail, envGood] =
      Except.error ("describe_volumes failed: r1") ∧
    okTotal (runAllRegion cfgActive delNever [envFail, envGood]) = 0 ∧
    okStaleIds (runAllRegion cfgActive delNever [envFail, envGood]) = [] := by
  refine ⟨rfl, rfl, rfl⟩

/-- C3, corrected.  With notify_only = true no delete call is issued by any of
the three handlers, but flagged resources do NOT each yield a SKIPPED
outcome: the deletion loop is skipped wholesale and the outcomes list stays
empty. -/
theorem notify_only_no_deletes (cfg : Config) (delA : String → String → Bool)
    (envs : List RegionEnv) (scfg : S3Config) (now : Int)
    (delS emptyOk delOk : String → Bool) (vols : List Volume) (senv : S3Env)
    (hn : cfg.notifyOnly = true) (hns : scfg.notifyOnly = true) :
    okOutcomes (runAllRegion cfg delA envs) = [] ∧
    okDeleteCalls (runAllRegion cfg delA envs) = [] ∧
    (runSingle cfg now delS vols).outcomes = [] ∧
    (runSingle cfg now delS vols).deleteCalls = [] ∧
    (runS3 scfg now emptyOk delOk senv).outcomes = [] ∧
    (runS3 scfg now emptyOk delOk senv).deleteCalls = [] := by
  refine ⟨(runAllRegion_notifyOnly cfg delA envs hn).1,
          (runAllRegion_notifyOnly cfg delA envs hn).2, ?_, ?_, ?_, ?_⟩
  · simp [runSingle, hn]
  · simp [runSingle, hn]
  · cases hf : senv.listBucketsFails <;> simp [runS3, hf, hns]
  · cases hf : senv.listBucketsFails <;> simp [runS3, hf, hns]

/-- C3 witness: concrete NOTIFY_ONLY runs of the three handlers issue no
delete call and record no outcome. -/
theorem notify_only_no_deletes_witness :
    okOutcomes (runAllRegion cfgNotify delNever [envTwo]) = [] ∧
    okDeleteCalls (runAllRegion cfgNotify delNever [envTwo]) = [] ∧
    (runSingle cfgNotify nowFix okAlways [vX]).outcomes = [] ∧
    (runSingle cfgNotify nowFix okAlways [vX]).deleteCalls = [] ∧
    (runS3 cfgS3Notify nowFix okAlways okAlways ⟨false, [bEmpty]⟩).outcomes = [] ∧
    (runS3 cfgS3Notify nowFix okAlways okAlways ⟨false, [bEmpty]⟩).deleteCalls = [] :=
  notify_only_no_deletes cfgNotify delNever [envTwo] cfgS3Notify nowFix
    okAlways okAlways okAlways [vX] ⟨false, [bEmpty]⟩ rfl rfl

/-- C3 counterexample.  A NOTIFY_ONLY multi-region run flags two stale
volumes yet records zero outcomes, so flagged resources do not each yield a
SKIPPED outcome. -/
theorem notify_only_skipped_counterexample :
    okStaleIds (runAllRegion cfgNotify delNever [envTwo]) =
      [("r1: vol-x"), ("r1: vol-y")] ∧
    okOutcomes (runAllRegion cfgNotify delNever [envTwo]) = [] := by
  refine ⟨rfl, rfl⟩

/-- C4, corrected.  The reported totals equal the enumeration cardinalities
summed across processed scopes, and in the multi-region script each region's
two metric data points carry exactly the per-scope cardinalities; in the
single-region script the notification body's stale line equals the mode-B
stale-subset cardinality, but the second metrics-sink counter
(AvailableVolumeCount, dashboarded as the stale count) carries the
available-set cardinality instead. -/
theorem counts_match_cardinalities (cfg : Config) (del : String → String → Bool)
    (envs : List RegionEnv) (cfg2 : Config) (now : Int) (del2 : String → Bool)
    (vols : List Volume) (h : allEnumOk envs = true) :
    okTotal (runAllRegion cfg del envs) = (envs.map (fun e => e.volumes.length)).sum ∧
    okStale (runAllRegion cfg del envs) =
      (envs.map (fun e => (availableVolumes e.volumes).length)).sum ∧
    okMetrics (runAllRegion cfg del envs) = (envs.map (fun e => regionMetrics e)).flatten ∧
    (runSingle cfg2 now del2 vols).emailTotal = vols.length ∧
    (runSingle cfg2 now del2 vols).emailAvailable = (availableVolumes vols).length ∧
    (runSingle cfg2 now del2 vols).emailStale =
      (staleVolumesB now cfg2.staleDaysThreshold vols).length ∧
    (runSingle cfg2 now del2 vols).metrics =
      [⟨"Custom/EBSMetrics", "TotalVolumeCount", none, vols.length⟩,
       ⟨"Custom/EBSMetrics", "AvailableVolumeCount", none,
        (availableVolumes vols).length⟩] := by
  rw [runAllRegion_ok_eq cfg del envs h]
  refine ⟨rfl, rfl, rfl, rfl, rfl, ?_, rfl⟩
  simp [runSingle]

/-- C4 witness: the count identities at a concrete two-volume region and a
concrete single-region run. -/
theorem counts_match_cardinalities_witness :
    okTotal (runAllRegion cfgActive delNever [envTwo]) =
      (([envTwo] : List RegionEnv).map (fun e => e.volumes.length)).sum ∧
    okStale (runAllRegion cfgActive delNever [envTwo]) =
      (([envTwo] : List RegionEnv).map
        (fun e => (availableVolumes e.volumes).length)).sum ∧
    okMetrics (runAllRegion cfgActive delNever [envTwo]) =
      (([envTwo] : List RegionEnv).map (fun e => regionMetrics e)).flatten ∧
    (runSingle cfgSingleShipped nowFix okAlways [vX]).emailTotal =
      ([vX] : List Volume).length ∧
    (runSingle cfgSingleShipped nowFix okAlways [vX]).emailAvailable =
      (availableVolumes [vX]).length ∧
    (runSingle cfgSingleShipped nowFix okAlways [vX]).emailStale =
      (staleVolumesB nowFix cfgSingleShipped.staleDaysThreshold [vX]).length ∧
    (runSingle cfgSingleShipped nowFix okAlways [vX]).metrics =
      [⟨"Custom/EBSMetrics", "TotalVolumeCount", none, ([vX] : List Volume).length⟩,
       ⟨"Custom/EBSMetrics", "AvailableVolumeCount", none,
        (availableVolumes [vX]).length⟩] :=
  counts_match_cardinalities cfgActive delNever [envTwo] cfgSingleShipped nowFix
    okAlways [vX] rfl

/-- C4 counterexample.  Under the shipped single-region flags at `nowFix`, one
available volume of age zero makes the metrics-sink stale counter
(AvailableVolumeCount) equal 1 while the mode-B stale subset has
cardinality 0. -/
theorem counts_metrics_counterexample :
    (runSingle cfgSingleShipped nowFix okAlways [vYoung]).metrics =
      [⟨"Custom/EBSMetrics", "TotalVolumeCount", none, 1⟩,
       ⟨"Custom/EBSMetrics", "AvailableVolumeCount", none, 1⟩] ∧
    (staleVolumesB nowFix cfgSingleShipped.staleDaysThreshold [vYoung]).length = 0 := by
  refine ⟨rfl, rfl⟩

/-- C5, confirmed.  Both EBS deletion loops wrap each delete in its own
try/except, so with dry_run = false and notify_only = false a raising delete
for stale id x and a succeeding one for stale id y give an ERROR entry for x
and a DELETED entry for y in the recorded outcomes: one resource's failure
never suppresses another's processing. -/
theorem per_item_deletion_isolation (cfg : Config) (del : String → String → Bool)
    (envs : List RegionEnv) (env : RegionEnv) (now : Int) (delS : String → Bool)
    (vols : List Volume) (x y x2 y2 : String)
    (hdry : cfg.dryRun = false) (hnot : cfg.notifyOnly = false)
    (henv : env ∈ envs) (hok : allEnumOk envs = true)
    (hx : x ∈ regionStaleIds env) (hy : y ∈ regionStaleIds env)
    (hdx : del env.name x = false) (hdy : del env.name y = true)
    (hx2 : x2 ∈ (runSingle cfg now delS vols).staleIds)
    (hy2 : y2 ∈ (runSingle cfg now delS vols).staleIds)
    (hdx2 : delS x2 = false) (hdy2 : delS y2 = true) :
    Outcome.errorOut (env.name ++ ": " ++ x) ∈ okOutcomes (runAllRegion cfg del envs) ∧
    Outcome.deleted (env.name ++ ": " ++ y) ∈ okOutcomes (runAllRegion cfg del envs) ∧
    Outcome.errorOut x2 ∈ (runSingle cfg now delS vols).outcomes ∧
    Outcome.deleted y2 ∈ (runSingle cfg now delS vols).outcomes := by
  have hxo : Outcome.errorOut (env.name ++ ": " ++ x) ∈ regionOutcomes cfg del env := by
    simp only [regionOutcomes, hnot, if_false, Bool.false_eq_true]
    exact List.mem_map.mpr ⟨x, hx, by simp [regionOutcome, hdry, hdx]⟩
  have hyo : Outcome.deleted (env.name ++ ": " ++ y) ∈ regionOutcomes cfg del env := by
    simp only [regionOutcomes, hnot, if_false, Bool.false_eq_true]
    exact List.mem_map.mpr ⟨y, hy, by simp [regionOutcome, hdry, hdy]⟩
  refine ⟨mem_okOutcomes_of_mem_region cfg del envs env _ henv hok hxo,
          mem_okOutcomes_of_mem_region cfg del envs env _ henv hok hyo, ?_, ?_⟩
  · simp only [runSingle, hnot, if_false, Bool.false_eq_true] at hx2 ⊢
    exact List.mem_map.mpr ⟨x2, hx2, by simp [volOutcome, hdry, hdx2]⟩
  · simp only [runSingle, hnot, if_false, Bool.false_eq_true] at hy2 ⊢
    exact List.mem_map.mpr ⟨y2, hy2, by simp [volOutcome, hdry, hdy2]⟩

/-- C5 witness: in region r1 holding stale vol-x and vol-y, a delete oracle
failing on vol-x and succeeding on vol-y yields both an ERROR and a DELETED
entry, in both EBS handlers. -/
theorem per_item_deletion_isolation_witness :
    Outcome.errorOut (envTwo.name ++ ": " ++ "vol-x")
      ∈ okOutcomes (runAllRegion cfgActive delOnlyY [envTwo]) ∧
    Outcome.deleted (envTwo.name ++ ": " ++ "vol-y")
      ∈ okOutcomes (runAllRegion cfgActive delOnlyY [envTwo]) ∧
    Outcome.errorOut ("vol-x")
      ∈ (runSingle cfgActive nowLate delOnlyY1 [vX, vY]).outcomes ∧
    Outcome.deleted ("vol-y")
      ∈ (runSingle cfgActive nowLate delOnlyY1 [vX, vY]).outcomes :=
  per_item_deletion_isolation cfgActive delOnlyY [envTwo] envTwo nowLate delOnlyY1
    [vX, vY] ("vol-x") ("vol-y") ("vol-x") ("vol-y") rfl rfl (by simp) rfl
    (by decide) (by decide) rfl rfl (by decide) (by decide) rfl rfl

/-- C7, confirmed.  For a stale bucket under active deletion, a raising
emptying step is caught as the bucket's ERROR outcome — the bucket is never
reported DELETED — and a DELETED outcome arises exactly when both the
emptying step and the bucket-delete call succeed; the ERROR outcome appears
in the run's recorded outcomes. -/
theorem bucket_empty_failure_is_error (cfg : S3Config) (now : Int)
    (emptyOk delOk : String → Bool) (env : S3Env) (b : Bucket)
    (hn : cfg.notifyOnly = false) (hd : cfg.dryRun = false)
    (hb : b ∈ env.buckets) (hlb : env.listBucketsFails = false)
    (hs : is_bucket_stale cfg now b = true) :
    (emptyOk b.name = false →
      bucketOutcome cfg emptyOk delOk b.name = Outcome.errorOut b.name ∧
      Outcome.errorOut b.name ∈ (runS3 cfg now emptyOk delOk env).outcomes) ∧
    (bucketOutcome cfg emptyOk delOk b.name = Outcome.deleted b.name ↔
      emptyOk b.name = true ∧ delOk b.name = true) := by
  constructor
  · intro hemp
    have hout : bucketOutcome cfg emptyOk delOk b.name = Outcome.errorOut b.name := by
      simp [bucketOutcome, hd, hemp]
    refine ⟨hout, ?_⟩
    simp only [runS3, hlb, if_false, Bool.false_eq_true, hn]
    exact List.mem_map.mpr ⟨b, List.mem_filter.mpr ⟨hb, hs⟩, hout⟩
  · cases he : emptyOk b.name <;> cases hdel : delOk b.name <;>
      simp [bucketOutcome, hd, he, hdel]

/-- C7 witness: the empty bucket is stale under the shipped flags, a failing
emptying step yields its ERROR outcome in the run, and DELETED requires both
steps to succeed. -/
theorem bucket_empty_failure_is_error_witness :
    (okNever bEmpty.name = false →
      bucketOutcome cfgS3Shipped okNever okAlways bEmpty.name =
        Outcome.errorOut bEmpty.name ∧
      Outcome.errorOut bEmpty.name ∈
        (runS3 cfgS3Shipped nowFix okNever okAlways ⟨false, [bEmpty]⟩).outcomes) ∧
    (bucketOutcome cfgS3Shipped okNever okAlways bEmpty.name =
        Outcome.deleted bEmpty.name ↔
      okNever bEmpty.name = true ∧ okAlways bEmpty.name = true) :=
  bucket_empty_failure_is_error cfgS3Shipped nowFix okNever okAlways
    ⟨false, [bEmpty]⟩ bEmpty rfl rfl (by simp) rfl rfl

/-- C8, confirmed.  When list_buckets raises, the S3 handler returns status
500 from inside the except block: no metric datum is pushed, no SNS publish
and no dashboard put happens, and nothing is reported. -/
theorem fatal_bucket_enum_aborts (cfg : S3Config) (now : Int)
    (emptyOk delOk : String → Bool) (env : S3Env)
    (h : env.listBucketsFails = true) :
    (runS3 cfg now emptyOk delOk env).statusCode = 500 ∧
    (runS3 cfg now emptyOk delOk env).metrics = [] ∧
    (runS3 cfg now emptyOk delOk env).snsPublishes = 0 ∧
    (runS3 cfg now emptyOk delOk env).dashboardPublishes = 0 ∧
    (runS3 cfg now emptyOk delOk env).outcomes = [] ∧
    (runS3 cfg now emptyOk delOk env).deleteCalls = [] := by
  simp [runS3, h]

/-- C8 witness: a concrete account whose list_buckets raises produces the
sink-free 500 result. -/
theorem fatal_bucket_enum_aborts_witness :
    (runS3 cfgS3Shipped nowFix okAlways okAlways ⟨true, [bEmpty]⟩).statusCode = 500 ∧
    (runS3 cfgS3Shipped nowFix okAlways okAlways ⟨true, [bEmpty]⟩).metrics = [] ∧
    (runS3 cfgS3Shipped nowFix okAlways okAlways ⟨true, [bEmpty]⟩).snsPublishes = 0 ∧
    (runS3 cfgS3Shipped nowFix okAlways okAlways ⟨true, [bEmpty]⟩).dashboardPublishes = 0 ∧
    (runS3 cfgS3Shipped nowFix okAlways okAlways ⟨true, [bEmpty]⟩).outcomes = [] ∧
    (runS3 cfgS3Shipped nowFix okAlways okAlways ⟨true, [bEmpty]⟩).deleteCalls = [] :=
  fatal_bucket_enum_aborts cfgS3Shipped nowFix okAlways okAlways ⟨true, [bEmpty]⟩ rfl

/-- C9, confirmed.  A raising per-bucket list_objects_v2 is caught inside
is_bucket_stale and downgrades that bucket's verdict to not stale, and the
run continues: prepending such a bucket leaves the stale counts, stale names
and outcomes of the remaining buckets unchanged while the total still counts
it. -/
theorem bucket_query_failure_fail_closed (cfg : S3Config) (now : Int)
    (emptyOk delOk : String → Bool) (bf : Bucket) (rest : List Bucket)
    (hf : bf.listFails = true) :
    is_bucket_stale cfg now bf = false ∧
    (runS3 cfg now emptyOk delOk ⟨false, bf :: rest⟩).staleBuckets =
      (runS3 cfg now emptyOk delOk ⟨false, rest⟩).staleBuckets ∧
    (runS3 cfg now emptyOk delOk ⟨false, bf :: rest⟩).staleNames =
      (runS3 cfg now emptyOk delOk ⟨false, rest⟩).staleNames ∧
    (runS3 cfg now emptyOk delOk ⟨false, bf :: rest⟩).outcomes =
      (runS3 cfg now emptyOk delOk ⟨false, rest⟩).outcomes ∧
    (runS3 cfg now emptyOk delOk ⟨false, bf :: rest⟩).totalBuckets = rest.length + 1 := by
  have h1 : is_bucket_stale cfg now bf = false := by
    simp [is_bucket_stale, hf]
  refine ⟨h1, ?_, ?_, ?_, ?_⟩ <;>
    simp [runS3, List.filter_cons, h1]

/-- C9 witness: a bucket with a raising listing is not stale and leaves the
processing of the remaining empty bucket untouched. -/
theorem bucket_query_failure_fail_closed_witness :
    is_bucket_stale cfgS3Shipped nowFix bListFail = false ∧
    (runS3 cfgS3Shipped nowFix okAlways okAlways ⟨false, [bListFail, bEmpty]⟩).staleBuckets =
      (runS3 cfgS3Shipped nowFix okAlways okAlways ⟨false, [bEmpty]⟩).staleBuckets ∧
    (runS3 cfgS3Shipped nowFix okAlways okAlways ⟨false, [bListFail, bEmpty]⟩).staleNames =
      (runS3 cfgS3Shipped nowFix okAlways okAlways ⟨false, [bEmpty]⟩).staleNames ∧
    (runS3 cfgS3Shipped nowFix okAlways okAlways ⟨false, [bListFail, bEmpty]⟩).outcomes =
      (runS3 cfgS3Shipped nowFix okAlways okAlways ⟨false, [bEmpty]⟩).outcomes ∧
    (runS3 cfgS3Shipped nowFix okAlways okAlways ⟨false, [bListFail, bEmpty]⟩).totalBuckets =
      ([bEmpty] : List Bucket).length + 1 :=
  bucket_query_failure_fail_closed cfgS3Shipped nowFix okAlways okAlways
    bListFail [bEmpty] rfl

end StaleSweep
